import Mathlib

/-!
# Verification of the inetbox.py LIN slave protocol engine

Shallow embedding of the `inetbox` package (files `inetbox/inetbox.py`,
`inetbox/lin.py`, `inetbox/conversions.py`, `inetbox/truma_service.py`) in
Lean 4, together with theorems settling the frozen claims about the
natural-language specification.

Python bytes are modelled as `List Nat` (each element a byte value),
Python ints as `Int`, heterogeneous dict values as `PyVal`, dicts as
insertion-ordered association lists with unique keys, and Python
exceptions as the `Except PyErr` monad.
-/

/-- A Python runtime value as it occurs in the dictionaries of the app:
ints (bitstruct `u` fields, counters), byte strings (bitstruct `r` fields),
and strings (raw MQTT payloads stored via the underscore path). -/
inductive PyVal where
  | int (n : Int)
  | bytes (bs : List Nat)
  | str (s : String)
  deriving DecidableEq, Repr

/-- The Python exception kinds the embedded code can raise. -/
inductive PyErr where
  | typeError
  | valueError
  | keyError
  | indexError
  | assertionError
  /-- `bitstruct.Error` (missing dictionary key wrapped by bitstruct, or a
  value/data size that does not fit the format). -/
  | bitstructError
  /-- a plain `raise Exception(msg)` -/
  | exception (msg : String)
  /-- `Lin.ChecksumError` -/
  | checksumError
  deriving DecidableEq, Repr

instance {e a : Type} [DecidableEq e] [DecidableEq a] : DecidableEq (Except e a) := fun x y =>
  match x, y with
  | Except.ok u, Except.ok v =>
      if h : u = v then isTrue (by rw [h]) else isFalse (by simp [h])
  | Except.error u, Except.error v =>
      if h : u = v then isTrue (by rw [h]) else isFalse (by simp [h])
  | Except.ok _, Except.error _ => isFalse (by simp)
  | Except.error _, Except.ok _ => isFalse (by simp)

/-- Lookup in an insertion-ordered association list (Python dict read). -/
def dlookup {α : Type} : List (String × α) → String → Option α
  | [], _ => none
  | (k', v) :: rest, k => if k' = k then some v else dlookup rest k

/-- Write to an insertion-ordered association list (Python dict write):
an existing key keeps its position, a new key is appended. -/
def dset {α : Type} : List (String × α) → String → α → List (String × α)
  | [], k, v => [(k, v)]
  | (k', v') :: rest, k, v =>
      if k' = k then (k, v) :: rest else (k', v') :: dset rest k v

/-- Deletion from an insertion-ordered association list (Python `del d[k]`). -/
def ddel {α : Type} : List (String × α) → String → List (String × α)
  | [], _ => []
  | (k', v') :: rest, k => if k' = k then rest else (k', v') :: ddel rest k

/-- `d.update(e)` for Python dicts: fold the entries of `e` into `d`. -/
def dupdate {α : Type} (d e : List (String × α)) : List (String × α) :=
  e.foldl (fun acc kv => dset acc kv.1 kv.2) d

/-- Lookup in the right-biased merge of two dicts, the access pattern of
    the Python expression `(we write lbrace for the brace characters)
    lbrace **a, **b rbrace [k]`. -/
def dmergeLookup {α : Type} (a b : List (String × α)) (k : String) : Option α :=
  match dlookup b k with
  | some v => some v
  | none => dlookup a k

/-- Modelled from the spec: `calculate_checksum` lives in `inetbox/tools.py`,
which is not part of the sources at hand.  Spec section 3, Checksum:
"Single-byte sum-with-carry (add each byte to an 8-bit accumulator, add
every carry-out back in, then bitwise invert)."  The accumulator stays in
`[0, 255]`, so the bitwise invert is `255 - acc`. -/
def calculate_checksum (bs : List Nat) : Nat :=
  255 - bs.foldl (fun acc b => let s := acc + b % 256; s % 256 + s / 256) 0

/-- `Lin.check_pid_parity` from `inetbox/lin.py`.  The Python `not` binds
more loosely than the xor chain, so `p1` is the negation of the whole
xor of bits 1, 3, 4, 5; Python booleans compare equal to the ints 0/1. -/
def check_pid_parity (byte : Nat) : Except PyErr Nat :=
  let p0 := (byte &&& 0x01) ^^^ ((byte &&& 0x02) >>> 1) ^^^ ((byte &&& 0x04) >>> 2)
      ^^^ ((byte &&& 0x10) >>> 4)
  let p1raw := ((byte &&& 0x02) >>> 1) ^^^ ((byte &&& 0x08) >>> 3)
      ^^^ ((byte &&& 0x10) >>> 4) ^^^ ((byte &&& 0x20) >>> 5)
  let p1 : Nat := if p1raw = 0 then 1 else 0
  if p0 = (byte &&& 0x40) >>> 6 ∧ p1 = (byte &&& 0x80) >>> 7 then
    Except.ok (byte &&& 0x3F)
  else
    Except.error PyErr.checksumError

/-- The parity construction of the claim: `P0 = id0 xor id1 xor id2 xor id4`
into bit 6 and `P1 = not (id1 xor id3 xor id4 xor id5)` into bit 7. -/
def applyParity (i : Nat) : Nat :=
  let b := fun j => (i >>> j) &&& 1
  let p0 := b 0 ^^^ b 1 ^^^ b 2 ^^^ b 4
  let p1 := 1 - (b 1 ^^^ b 3 ^^^ b 4 ^^^ b 5)
  (i &&& 0x3F) ||| (p0 <<< 6) ||| (p1 <<< 7)

/-- Renders a value of `t/10` (an exact number of tenths) the way Python
`str` renders the `Decimal` arithmetic of `temp_code_to_decimal`: integral
results carry exponent 0 and print without a decimal point, all others
print with exactly one fractional digit. -/
def decimalRender (t : Int) : String :=
  if t % 10 = 0 then toString (t / 10)
  else if 0 ≤ t then toString (t / 10) ++ "." ++ toString (t % 10)
  else "-" ++ toString (t.natAbs / 10) ++ "." ++ toString (t.natAbs % 10)

/-- `temp_code_to_decimal` from `inetbox/conversions.py`: sentinel codes
0xAAA, 0xAAAA and 0x0000 yield the string "0", otherwise the string of
`Decimal(code)/Decimal(10) - Decimal(273)`, held here in tenths. -/
def temp_code_to_decimal (bytestring : Nat) (lang : String) : String :=
  if bytestring = 0xAAA ∨ bytestring = 0xAAAA ∨ bytestring = 0x0000 then "0"
  else decimalRender ((bytestring : Int) - 2730)

/-- `temp_code_to_string` from `inetbox/conversions.py`:
`str` applied to the (already string-valued) `temp_code_to_decimal`. -/
def temp_code_to_string (bytestring : Nat) (lang : String) : String :=
  temp_code_to_decimal bytestring lang

/-- `decimal_to_temp_code` from `inetbox/conversions.py`.  `None` or a
value below 5 encodes as 0x00; otherwise `int((decimal + 273) * 10)`
(the argument is nonnegative there, so truncation towards zero is the
floor). -/
def decimal_to_temp_code (decimal : Option ℚ) (lang : String) : Nat :=
  match decimal with
  | none => 0x00
  | some d => if d < 5 then 0x00 else (Int.floor ((d + 273) * 10)).toNat

/-- `string_to_temp_code` from `inetbox/conversions.py`:
`decimal_to_temp_code(Decimal(string), lang)`.  The `Decimal` parse of the
numeric string is modelled by passing the parsed rational directly. -/
def string_to_temp_code (string : ℚ) (lang : String) : Nat :=
  decimal_to_temp_code (some string) lang

/-- One side of an entry of `STATUS_CONVERSION_FUNCTIONS`: either the
one-argument Python builtin `int`, or one of the two-parameter functions
of `conversions.py` (signature `(value, lang)`), recorded by name. -/
inductive ConvFn where
  | builtinInt
  | twoArg (fname : String)
  deriving DecidableEq, Repr

/-- Python `int(value)` for an `int` is the identity; for a numeric string
it parses an optional sign followed by decimal digits; for bytes it
raises `TypeError`; for a non-numeric string it raises `ValueError`. -/
def natOfDigits (l : List Char) : Nat :=
  l.foldl (fun a c => a * 10 + (c.toNat - 48)) 0

def pyIntOfString (s : String) : Except PyErr Int :=
  let l := s.toList
  if l ≠ [] ∧ l.all Char.isDigit then Except.ok (natOfDigits l)
  else if l.head? = some '-' ∧ l.tail ≠ [] ∧ l.tail.all Char.isDigit then
    Except.ok (-(natOfDigits l.tail : Int))
  else Except.error PyErr.valueError

/-- Applying a conversion-table entry to a *single* argument, the way
`get_status` and `set_status` invoke it (`...FUNCTIONS[key][i](value)`).
A two-parameter function of `conversions.py` called with one argument
raises `TypeError` before its body runs. -/
def applyConv1 (f : ConvFn) (v : PyVal) : Except PyErr PyVal :=
  match f with
  | ConvFn.twoArg _ => Except.error PyErr.typeError
  | ConvFn.builtinInt =>
      match v with
      | PyVal.int n => Except.ok (PyVal.int n)
      | PyVal.bytes _ => Except.error PyErr.typeError
      | PyVal.str s => (pyIntOfString s).map PyVal.int

/-- `InetboxApp.STATUS_CONVERSION_FUNCTIONS`: pairs of (read, write)
conversion functions, `none` when writing is not allowed. -/
def STATUS_CONVERSION_FUNCTIONS : List (String × (Option ConvFn × Option ConvFn)) :=
  [ ("target_temp_room",
      (some (ConvFn.twoArg "temp_code_to_string"), some (ConvFn.twoArg "string_to_temp_code"))),
    ("heating_mode",
      (some (ConvFn.twoArg "heating_mode_to_string"), some (ConvFn.twoArg "string_to_heating_mode"))),
    ("target_temp_water",
      (some (ConvFn.twoArg "temp_code_to_string"), some (ConvFn.twoArg "string_to_temp_code"))),
    ("el_power_level",
      (some (ConvFn.twoArg "el_power_code_to_string"), some (ConvFn.twoArg "string_to_el_power_code"))),
    ("energy_mix",
      (some (ConvFn.twoArg "energy_mix_code_to_string"), some (ConvFn.twoArg "string_to_energy_mix_code"))),
    ("current_temp_room", (some (ConvFn.twoArg "temp_code_to_string"), none)),
    ("current_temp_water", (some (ConvFn.twoArg "temp_code_to_string"), none)),
    ("operating_status", (some (ConvFn.twoArg "operating_status_to_string"), none)),
    ("error_code", (some (ConvFn.twoArg "error_code_to_string"), none)),
    ("timer_target_temp_room",
      (some (ConvFn.twoArg "temp_code_to_string"), some (ConvFn.twoArg "string_to_temp_code"))),
    ("timer_target_temp_water",
      (some (ConvFn.twoArg "temp_code_to_string"), some (ConvFn.twoArg "string_to_temp_code"))),
    ("timer_active",
      (some (ConvFn.twoArg "bool_to_int"), some (ConvFn.twoArg "int_to_bool"))),
    ("timer_start_minutes", (some ConvFn.builtinInt, some ConvFn.builtinInt)),
    ("timer_start_hours", (some ConvFn.builtinInt, some ConvFn.builtinInt)),
    ("timer_stop_minutes", (some ConvFn.builtinInt, some ConvFn.builtinInt)),
    ("timer_stop_hours", (some ConvFn.builtinInt, some ConvFn.builtinInt)),
    ("wall_time_hours", (some ConvFn.builtinInt, some ConvFn.builtinInt)),
    ("wall_time_minutes", (some ConvFn.builtinInt, some ConvFn.builtinInt)),
    ("wall_time_seconds", (some ConvFn.builtinInt, some ConvFn.builtinInt)),
    ("clock_mode",
      (some (ConvFn.twoArg "clock_mode_to_string"), some (ConvFn.twoArg "string_to_clock_mode"))),
    ("clock_source",
      (some (ConvFn.twoArg "clock_source_to_string"), some (ConvFn.twoArg "string_to_clock_source"))) ]

/-- Kind of a bitstruct field as used in the three command formats:
unsigned (`u`) or raw bytes (`r`). -/
inductive FieldKind where
  | unsigned
  | raw
  deriving DecidableEq, Repr

structure BitField where
  name : String
  bits : Nat
  kind : FieldKind
  deriving DecidableEq, Repr

/-- `TrumaCommand` from `inetbox/inetbox.py` (the bitstruct format is
spelled out as its field list; every field width here is a multiple of
8). -/
structure TrumaCommand where
  cid : Nat
  read_len : Nat
  write_len : Nat
  fields : List BitField
  deriving DecidableEq, Repr

def TrumaCommand.cid_write (c : TrumaCommand) : Nat := c.cid - 1

/-- Little-endian byte list of a `w`-bit value: bitstruct lays each field
out most significant bit first, and the byte-order character closing each
of the three formats swaps every field to least-significant byte first. -/
def leBytes (w : Nat) (n : Nat) : List Nat :=
  (List.range (w / 8)).map (fun i => (n >>> (8 * i)) % 256)

/-- Little-endian value of a byte segment (inverse of `leBytes`). -/
def leValue (seg : List Nat) : Nat :=
  seg.foldr (fun b acc => acc * 256 + b) 0

def packFieldValue (f : BitField) (v : PyVal) : Except PyErr (List Nat) :=
  match f.kind, v with
  | FieldKind.unsigned, PyVal.int n =>
      if 0 ≤ n ∧ n < (2 : Int) ^ f.bits then Except.ok (leBytes f.bits n.toNat)
      else Except.error PyErr.bitstructError
  | FieldKind.unsigned, _ => Except.error PyErr.typeError
  | FieldKind.raw, PyVal.bytes bs =>
      if f.bits / 8 ≤ bs.length then Except.ok (bs.take (f.bits / 8))
      else Except.error PyErr.bitstructError
  | FieldKind.raw, _ => Except.error PyErr.typeError

/-- `TrumaCommand.pack`: bitstruct first gathers `data[name]` for every
field name (a missing key raises `bitstruct.Error`), then packs the
gathered values, then the source truncates to the first `write_len`
bytes. -/
def TrumaCommand.pack (c : TrumaCommand) (data : String → Option PyVal) :
    Except PyErr (List Nat) :=
  match c.fields.mapM (fun f => (data f.name).map (fun v => (f, v))) with
  | none => Except.error PyErr.bitstructError
  | some fvs =>
      (fvs.mapM (fun fv => packFieldValue fv.1 fv.2)).map
        (fun segs => segs.flatten.take c.write_len)

/-- bitstruct unpack: walk the fields over the byte data; running out of
data raises `bitstruct.Error`; surplus trailing bytes are ignored. -/
def unpackFields : List BitField → List Nat → Except PyErr (List (String × PyVal))
  | [], _ => Except.ok []
  | f :: rest, bs =>
      if bs.length < f.bits / 8 then Except.error PyErr.bitstructError
      else
        let seg := bs.take (f.bits / 8)
        let v : PyVal := match f.kind with
          | FieldKind.unsigned => PyVal.int (leValue seg)
          | FieldKind.raw => PyVal.bytes seg
        (unpackFields rest (bs.drop (f.bits / 8))).map (fun tl => (f.name, v) :: tl)

/-- `TrumaCommand.parse`: unpack into a dict; a field name occurring
twice in the format keeps the value of its last occurrence. -/
def TrumaCommand.parse (c : TrumaCommand) (byte_data : List Nat) :
    Except PyErr (List (String × PyVal)) :=
  (unpackFields c.fields byte_data).map (fun kvs => dupdate [] kvs)

def COMMAND_STATUS : TrumaCommand :=
  { cid := 0x33, read_len := 0x14, write_len := 0x0C,
    fields :=
      [ ⟨"target_temp_room", 16, FieldKind.unsigned⟩,
        ⟨"heating_mode", 8, FieldKind.unsigned⟩,
        ⟨"_recv_status_u3", 8, FieldKind.unsigned⟩,
        ⟨"el_power_level", 16, FieldKind.unsigned⟩,
        ⟨"target_temp_water", 16, FieldKind.unsigned⟩,
        ⟨"el_power_level", 16, FieldKind.unsigned⟩,
        ⟨"energy_mix", 8, FieldKind.unsigned⟩,
        ⟨"energy_mix", 8, FieldKind.unsigned⟩,
        ⟨"current_temp_water", 16, FieldKind.unsigned⟩,
        ⟨"current_temp_room", 16, FieldKind.unsigned⟩,
        ⟨"operating_status", 8, FieldKind.unsigned⟩,
        ⟨"error_code", 16, FieldKind.raw⟩,
        ⟨"_recv_status_u10", 8, FieldKind.unsigned⟩ ] }

/-- The TIMER format has 20 fields but its `names` list in the source has
25 entries; bitstruct pairs names with fields by position, so the surplus
last five names (timer_active, timer_start_minutes, timer_start_hours,
timer_stop_minutes, timer_stop_hours) are ignored. -/
def COMMAND_TIMER : TrumaCommand :=
  { cid := 0x3D, read_len := 0x18, write_len := 0x10,
    fields :=
      [ ⟨"timer_target_temp_room", 16, FieldKind.unsigned⟩,
        ⟨"timer_heating_mode", 8, FieldKind.unsigned⟩,
        ⟨"_timer_unknown1", 8, FieldKind.unsigned⟩,
        ⟨"timer_el_power_level", 8, FieldKind.unsigned⟩,
        ⟨"_timer_unknown5", 8, FieldKind.unsigned⟩,
        ⟨"timer_target_temp_water", 16, FieldKind.unsigned⟩,
        ⟨"_timer_unknown6", 8, FieldKind.unsigned⟩,
        ⟨"_timer_unknown7", 8, FieldKind.unsigned⟩,
        ⟨"_timer_unknown8", 8, FieldKind.unsigned⟩,
        ⟨"_timer_unknown9", 8, FieldKind.unsigned⟩,
        ⟨"_timer_unknown10", 16, FieldKind.unsigned⟩,
        ⟨"_timer_unknown11", 16, FieldKind.unsigned⟩,
        ⟨"_timer_unknown10", 8, FieldKind.unsigned⟩,
        ⟨"_timer_unknown11", 8, FieldKind.unsigned⟩,
        ⟨"_timer_unknown12", 8, FieldKind.unsigned⟩,
        ⟨"_timer_unknown13", 8, FieldKind.unsigned⟩,
        ⟨"_timer_unknown14", 8, FieldKind.unsigned⟩,
        ⟨"_timer_unknown15", 8, FieldKind.unsigned⟩,
        ⟨"_timer_unknown16", 8, FieldKind.unsigned⟩,
        ⟨"_timer_unknown17", 8, FieldKind.unsigned⟩ ] }

def COMMAND_TIME : TrumaCommand :=
  { cid := 0x15, read_len := 0x0A, write_len := 0x08,
    fields :=
      [ ⟨"wall_time_hours", 8, FieldKind.unsigned⟩,
        ⟨"wall_time_minutes", 8, FieldKind.unsigned⟩,
        ⟨"wall_time_seconds", 8, FieldKind.unsigned⟩,
        ⟨"_time_display1", 8, FieldKind.unsigned⟩,
        ⟨"_time_display2", 8, FieldKind.unsigned⟩,
        ⟨"_time_display3", 8, FieldKind.unsigned⟩,
        ⟨"clock_mode", 8, FieldKind.unsigned⟩,
        ⟨"clock_source", 8, FieldKind.unsigned⟩,
        ⟨"_time_display4", 8, FieldKind.unsigned⟩,
        ⟨"_time_display5", 8, FieldKind.unsigned⟩ ] }

def COMMANDS (cid : Nat) : Option TrumaCommand :=
  if cid = 0x33 then some COMMAND_STATUS
  else if cid = 0x3D then some COMMAND_TIMER
  else if cid = 0x15 then some COMMAND_TIME
  else none

def STATUS_BUFFER_PREAMBLE : List Nat :=
  [0x00, 0x1E, 0x00, 0x00, 0x22, 0xFF, 0xFF, 0xFF, 0x54, 0x01]

def STATUS_BUFFER_COMMAND_ID_COMMAND_COUNTER : Nat := 0x0D

def STATUS_HEADER_CHECKSUM_START : Nat := 8

/-- The mutable state of `InetboxApp`. -/
structure AppState where
  status : List (String × PyVal)
  statusUpdated : Bool
  updatesToSend : List (String × PyVal)
  canSendUpdates : Bool
  displayStatus : List (String × PyVal)
  deriving DecidableEq, Repr

/-- The initial application state: the status dict holds only the command
counter (initialised to 128 in this source), nothing is queued and
`can_send_updates` is false. -/
def initAppState : AppState :=
  { status := [("_command_counter", PyVal.int 128)],
    statusUpdated := false,
    updatesToSend := [],
    canSendUpdates := false,
    displayStatus := [] }

/-- Byte of a list at an index, for positions already known to exist. -/
def byteAt (bs : List Nat) (i : Nat) : Nat := ((bs.drop i).headD 0)

/-- `InetboxApp.process_status_buffer_update`.  A buffer that does not
start with the 10-byte preamble is dropped with no state change.  With
the preamble, bytes 10 and 11 are the length/cid header (a buffer shorter
than 12 makes the tuple unpacking raise `ValueError`), byte 12 the command
counter and byte 13 the (unchecked) checksum (reading them raises
`IndexError` on a shorter buffer).  cid 0x0D only adopts the counter; an
unknown cid is dropped; otherwise the record after byte 14 is unpacked
(`bitstruct.Error` propagates) and merged into the status dict, setting
`status_updated` and `can_send_updates`. -/
def process_status_buffer_update (app : AppState) (status_buffer : List Nat) :
    Except PyErr AppState :=
  if ¬ (STATUS_BUFFER_PREAMBLE.isPrefixOf status_buffer) then Except.ok app
  else if status_buffer.length < 12 then Except.error PyErr.valueError
  else if status_buffer.length < 14 then Except.error PyErr.indexError
  else
    let command_id := byteAt status_buffer 11
    let command_counter := byteAt status_buffer 12
    if command_id = STATUS_BUFFER_COMMAND_ID_COMMAND_COUNTER then
      Except.ok { app with
        status := dset app.status "_command_counter" (PyVal.int command_counter) }
    else
      match COMMANDS command_id with
      | none => Except.ok app
      | some command =>
          match command.parse (status_buffer.drop 14) with
          | Except.error e => Except.error e
          | Except.ok parsed_status_buffer =>
              Except.ok { app with
                statusUpdated := true,
                canSendUpdates := true,
                status := dupdate app.status parsed_status_buffer }

/-- `InetboxApp._get_status_buffer_for_writing`.  With nothing queued it
returns `None`.  Otherwise it advances the command counter mod 255, packs
the merge of the status dict and the queued updates through the STATUS
write format; a `bitstruct.Error` (data still missing) clears
`can_send_updates` and yields `None`; on success the queued updates are
cleared and the preamble, header, counter, checksum and record are
returned. -/
def get_status_buffer_for_writing (app : AppState) :
    Except PyErr (AppState × Option (List Nat)) :=
  if app.updatesToSend = [] then Except.ok (app, none)
  else
    match dlookup app.status "_command_counter" with
    | none => Except.error PyErr.keyError
    | some (PyVal.bytes _) => Except.error PyErr.typeError
    | some (PyVal.str _) => Except.error PyErr.typeError
    | some (PyVal.int c) =>
        let c' := (c + 1) % 255
        let status' := dset app.status "_command_counter" (PyVal.int c')
        let app' := { app with status := status' }
        match COMMAND_STATUS.pack (dmergeLookup status' app'.updatesToSend) with
        | Except.error PyErr.bitstructError =>
            Except.ok ({ app' with canSendUpdates := false }, none)
        | Except.error e => Except.error e
        | Except.ok binary_buffer_contents =>
            let checksum := calculate_checksum
              (STATUS_BUFFER_PREAMBLE.drop STATUS_HEADER_CHECKSUM_START
                ++ [COMMAND_STATUS.write_len, COMMAND_STATUS.cid_write, c'.toNat]
                ++ binary_buffer_contents)
            Except.ok ({ app' with updatesToSend := [] },
              some (STATUS_BUFFER_PREAMBLE
                ++ [COMMAND_STATUS.write_len, COMMAND_STATUS.cid_write, c'.toNat, checksum]
                ++ binary_buffer_contents))

/-- Python `key.startswith` of the underscore string: the first character
is an underscore. -/
def pyUnderscore (key : String) : Bool :=
  key.toList.head? = some '_'

/-- `InetboxApp.set_status`.  A key starting with an underscore stores the
raw value into the queued updates; otherwise the key must have a write
conversion function, which is invoked with the single argument `value`. -/
def set_status (app : AppState) (key : String) (value : PyVal) :
    Except PyErr AppState :=
  if pyUnderscore key then
    Except.ok { app with updatesToSend := dset app.updatesToSend key value }
  else
    match dlookup STATUS_CONVERSION_FUNCTIONS key with
    | none => Except.error (PyErr.exception "Conversion function not defined")
    | some (_, none) => Except.error (PyErr.exception "Conversion function not defined for writing")
    | some (_, some wf) =>
        match applyConv1 wf value with
        | Except.error e => Except.error e
        | Except.ok v' =>
            Except.ok { app with updatesToSend := dset app.updatesToSend key v' }

/-- Python `hex` of an int (lowercase digits, sign in front). -/
def pyHex (n : Int) : String :=
  if n < 0 then "-0x" ++ (Nat.toDigits 16 n.natAbs).asString
  else "0x" ++ (Nat.toDigits 16 n.toNat).asString

/-- Python `str` of a stored value as the underscore branch of
`get_status` formats it. -/
def pyStr (v : PyVal) : String :=
  match v with
  | PyVal.int n => toString n
  | PyVal.bytes _ => "bytes"
  | PyVal.str s => s

/-- `InetboxApp.get_status`.  A key absent from the status dict returns
the default if one is given and raises `KeyError` otherwise.  An
underscore key formats the raw value (the `hex` call raises `TypeError`
on a non-int).  Any other key is routed through the read conversion
function, invoked with the single argument `self.status[key]`. -/
def get_status (app : AppState) (key : String) (default : Option PyVal) :
    Except PyErr PyVal :=
  match dlookup app.status key with
  | none =>
      match default with
      | some d => Except.ok d
      | none => Except.error PyErr.keyError
  | some v =>
      if pyUnderscore key then
        match v with
        | PyVal.int n =>
            Except.ok (PyVal.str ("unknown - " ++ toString n ++ " = " ++ pyHex n))
        | _ => Except.error PyErr.typeError
      else
        match dlookup STATUS_CONVERSION_FUNCTIONS key with
        | none => Except.error (PyErr.exception "Conversion function not defined")
        | some (none, _) => Except.error (PyErr.exception "Conversion function not defined for reading")
        | some (some rf, _) => applyConv1 rf v

/-- `InetboxApp.get_all`: clear `status_updated`, then read every key of
the status dict through `get_status` (the first raising key aborts the
dict comprehension with that exception). -/
def get_all (app : AppState) : Except PyErr (AppState × List (String × PyVal)) :=
  let app' := { app with statusUpdated := false }
  (app.status.mapM (fun kv => (get_status app kv.1 none).map (fun v => (kv.1, v)))).map
    (fun l => (app', l))

/-- `InetboxLINProtocol.NODE_ADDRESS`. -/
def NODE_ADDRESS : Nat := 0x03

/-- `InetboxLINProtocol.IDENTIFIER`, the vendor identifier. -/
def IDENTIFIER : List Nat := [0x17, 0x46, 0x00, 0x1F]

/-- The multi-frame reassembly state of `InetboxLINProtocol`
(`transportlayer_received_request_sid` / `_payload` / `_expected_bytes`). -/
structure ProtocolState where
  receivedSid : Option Nat
  receivedPayload : Option (List Nat)
  receivedExpectedBytes : Option Int
  deriving DecidableEq, Repr

def initProtocolState : ProtocolState :=
  { receivedSid := none, receivedPayload := none, receivedExpectedBytes := none }

/-- The state of `Lin` (here only `transportlayer_response_buffer`). -/
structure LinState where
  responseBuffer : Option (List (List Nat))
  deriving DecidableEq, Repr

def initLinState : LinState := { responseBuffer := none }

/-- `Lin.prepare_transportlayer_response`. -/
def prepare_transportlayer_response (lin : LinState) (messages : List (List Nat)) :
    LinState :=
  { lin with responseBuffer := some messages }

/-- `InetboxLINProtocol.receive_read_by_identifier_request`. -/
def receive_read_by_identifier_request (lin : LinState) : LinState :=
  prepare_transportlayer_response lin
    [[NODE_ADDRESS, 0x06, 0xF2] ++ IDENTIFIER ++ [0x00]]

inductive FrameType where
  | single
  | first
  | consecutive
  | reserved
  deriving DecidableEq, Repr

/-- `InetboxLINProtocol._complete_transportlayer_request`: sid 0xBB
acknowledges and ingests the status buffer (parsing errors propagate);
sid 0xBA materialises a write — `None` means stay silent, otherwise the
padded buffer is cut into the seven response segments. -/
def complete_transportlayer_request (lin : LinState) (app : AppState)
    (sid : Option Nat) (request_payload : List Nat) :
    Except PyErr (LinState × AppState) :=
  if sid = some 0xBB then
    let lin' := prepare_transportlayer_response lin
      [[NODE_ADDRESS, 0x01, 0xFB, 0xFF, 0xFF, 0xFF, 0xFF, 0xFF]]
    (process_status_buffer_update app request_payload).map (fun app' => (lin', app'))
  else if sid = some 0xBA then
    match get_status_buffer_for_writing app with
    | Except.error e => Except.error e
    | Except.ok (app', none) => Except.ok (lin, app')
    | Except.ok (app', some sb0) =>
        let send_buffer := sb0 ++ List.replicate (38 - sb0.length) 0
        Except.ok (prepare_transportlayer_response lin
          [ [NODE_ADDRESS, 0x10, 0x29, 0xFA, 0x00, 0x1F, 0x00, 0x1E],
            [NODE_ADDRESS, 0x21] ++ ((send_buffer.drop 2).take 6),
            [NODE_ADDRESS, 0x22] ++ ((send_buffer.drop 8).take 6),
            [NODE_ADDRESS, 0x23] ++ ((send_buffer.drop 14).take 6),
            [NODE_ADDRESS, 0x24] ++ ((send_buffer.drop 20).take 6),
            [NODE_ADDRESS, 0x25] ++ ((send_buffer.drop 26).take 6),
            [NODE_ADDRESS, 0x26] ++ ((send_buffer.drop 32).take 6) ], app')
  else Except.ok (lin, app)

/-- `InetboxLINProtocol.receive_transportlayer_frame`.  Branches in source
order: heartbeat (single, sid 0xB9), assign NAD (single, sid 0xB0, payload
starting with the vendor identifier — a foreign target address raises),
start of a multi-frame request (first, sid 0xBA/0xBB), a consecutive frame
while a reassembly is in flight (the `assert` on the stored expected byte
count raises `AssertionError` when that count is 0 or unset), else
silence. -/
def receive_transportlayer_frame (p : ProtocolState) (lin : LinState) (app : AppState)
    (frame_type : FrameType) (expected_bytes : Option Int) (sid : Option Nat)
    (payload : List Nat) : Except PyErr (ProtocolState × LinState × AppState) :=
  if frame_type = FrameType.single ∧ sid = some 0xB9 ∧
      payload.take 2 = IDENTIFIER.drop 2 then
    Except.ok (p, prepare_transportlayer_response lin
      [[NODE_ADDRESS, 0x02, 0xF9, 0x00, 0xFF, 0xFF, 0xFF, 0xFF]], app)
  else if frame_type = FrameType.single ∧ sid = some 0xB0 ∧
      IDENTIFIER.isPrefixOf payload then
    if payload.getLast? ≠ some NODE_ADDRESS then
      Except.error (PyErr.exception "CP Plus tried to give us a new node address")
    else
      Except.ok (p, prepare_transportlayer_response lin
        [[NODE_ADDRESS, 0x01, 0xF0, 0xFF, 0xFF, 0xFF, 0xFF, 0xFF]], app)
  else if frame_type = FrameType.first ∧ (sid = some 0xBA ∨ sid = some 0xBB) ∧
      payload.take 2 = IDENTIFIER.drop 2 then
    match expected_bytes with
    | none => Except.error PyErr.typeError
    | some e =>
        Except.ok ({ receivedSid := sid
                     receivedPayload := some (payload.drop 2)
                     receivedExpectedBytes := some (e - 2) }, lin, app)
  else if frame_type = FrameType.consecutive ∧ (p.receivedPayload.getD []) ≠ [] then
    let newPayload := (p.receivedPayload.getD []) ++ payload
    match p.receivedExpectedBytes with
    | none => Except.error PyErr.assertionError
    | some e =>
        if e = 0 then Except.error PyErr.assertionError
        else if (newPayload.length : Int) ≥ e then
          match complete_transportlayer_request lin app p.receivedSid newPayload with
          | Except.error err => Except.error err
          | Except.ok (lin', app') =>
              Except.ok ({ p with receivedPayload := none }, lin', app')
        else
          Except.ok ({ p with receivedPayload := some newPayload }, lin, app)
  else Except.ok (p, lin, app)

/-- The parsed transport frame header. -/
structure FrameHeader where
  node_address_byte : Nat
  frame_type : FrameType
  expected_bytes : Option Int
  sid : Option Nat
  payload : List Nat
  deriving DecidableEq, Repr

/-- Python slice `l[0 : e]` for a possibly negative stop. -/
def pySlice (l : List Nat) (e : Int) : List Nat :=
  if e ≤ 0 then [] else l.take e.toNat

/-- `Lin.parse_transportlayer_frame_header`: byte 0 is the node address,
the high nibble of byte 1 the PCI type.  Single frames carry
`expected = (low nibble) - 1`, the sid in byte 2 and the payload in the
following `expected` bytes; first frames carry a two-byte length, the sid
in byte 3 and the rest as payload; consecutive frames carry the payload
from byte 2 on.  Accessing a missing byte raises `IndexError`. -/
def parse_transportlayer_frame_header (databytes : List Nat) :
    Except PyErr FrameHeader :=
  match databytes with
  | [] => Except.error PyErr.indexError
  | [_] => Except.error PyErr.indexError
  | b0 :: b1 :: rest =>
      let pci := b1 >>> 4
      if pci = 0x0 then
        match rest with
        | [] => Except.error PyErr.indexError
        | b2 :: rest2 =>
            let e : Int := ((b1 &&& 0x0F : Nat) : Int) - 1
            Except.ok { node_address_byte := b0
                        frame_type := FrameType.single
                        expected_bytes := some e
                        sid := some b2
                        payload := pySlice rest2 e }
      else if pci = 0x1 then
        match rest with
        | [] => Except.error PyErr.indexError
        | [_] => Except.error PyErr.indexError
        | b2 :: b3 :: rest2 =>
            let e : Int := ((((b1 &&& 0x0F) <<< 8) ||| b2 : Nat) : Int) - 1
            Except.ok { node_address_byte := b0
                        frame_type := FrameType.first
                        expected_bytes := some e
                        sid := some b3
                        payload := rest2 }
      else if pci = 0x2 then
        Except.ok { node_address_byte := b0
                    frame_type := FrameType.consecutive
                    expected_bytes := none
                    sid := none
                    payload := rest }
      else
        Except.ok { node_address_byte := b0
                    frame_type := FrameType.reserved
                    expected_bytes := none
                    sid := none
                    payload := [] }

/-- `Lin.parse_transportlayer_master2slave`: a read-by-identifier request
whose payload carries the vendor identifier from byte 1 on is handled
directly; otherwise frames addressed to this node or broadcast go to
`receive_transportlayer_frame`; anything else is dropped. -/
def parse_transportlayer_master2slave (p : ProtocolState) (lin : LinState)
    (app : AppState) (databytes : List Nat) :
    Except PyErr (ProtocolState × LinState × AppState) :=
  match parse_transportlayer_frame_header databytes with
  | Except.error e => Except.error e
  | Except.ok h =>
      if h.sid = some 0xB2 ∧ h.payload.drop 1 = IDENTIFIER then
        Except.ok (p, receive_read_by_identifier_request lin, app)
      else if h.node_address_byte = NODE_ADDRESS ∨ h.node_address_byte = 0x7F then
        receive_transportlayer_frame p lin app h.frame_type h.expected_bytes h.sid
          h.payload
      else
        Except.ok (p, lin, app)

/-- Python `str.isdigit` for the ASCII strings at hand. -/
def pyIsDigit (s : String) : Bool :=
  !s.isEmpty && s.toList.all Char.isDigit

/-- Python `str.split` with a single-character separator, keeping empty
components. -/
def splitCharList (sep : Char) : List Char → List (List Char)
  | [] => [[]]
  | c :: rest =>
      let r := splitCharList sep rest
      if c = sep then [] :: r
      else
        match r with
        | [] => [[c]]
        | h :: t => (c :: h) :: t

def pySplitColon (s : String) : List String :=
  (splitCharList ':' s.toList).map (fun l => String.mk l)

/-- The `wall_time` branch of `TrumaService.handle_set_message`.  The raw
message is first stored under the `wall_time` key of the updates buffer.
A message that does not split on colons into exactly three all-digit
components, or whose hours exceed 23 or minutes or seconds exceed 59,
leaves the buffer there (only the raw key) and queues nothing else; an
accepted message removes the `wall_time` key and stores the three
component strings under the three primitive keys.  (The `< 0` half of the
source's range check can never fire on all-digit components.) -/
def handle_set_wall_time (updates_buffer : List (String × String)) (msg : String) :
    List (String × String) :=
  let ub := dset updates_buffer "wall_time" msg
  match pySplitColon msg with
  | [hours, minutes, seconds] =>
      if ¬ (pyIsDigit hours ∧ pyIsDigit minutes ∧ pyIsDigit seconds) then ub
      else if natOfDigits hours.toList > 23 ∨ natOfDigits minutes.toList > 59 ∨
          natOfDigits seconds.toList > 59 then ub
      else
        let ub2 := ddel ub "wall_time"
        dset (dset (dset ub2 "wall_time_hours" hours) "wall_time_minutes" minutes)
          "wall_time_seconds" seconds
  | _ => ub

/-- A concrete post-ingest application state used as a witness: the
status dict holds every field of the STATUS record (as a successful
`process_status_buffer_update` would leave it) and one pending update. -/
def sFullC2 : AppState :=
  { status :=
      [ ("_command_counter", PyVal.int 10),
        ("target_temp_room", PyVal.int 2930),
        ("heating_mode", PyVal.int 1),
        ("_recv_status_u3", PyVal.int 0),
        ("el_power_level", PyVal.int 0),
        ("target_temp_water", PyVal.int 0),
        ("energy_mix", PyVal.int 1),
        ("current_temp_water", PyVal.int 2930),
        ("current_temp_room", PyVal.int 2930),
        ("operating_status", PyVal.int 5),
        ("error_code", PyVal.bytes [0, 0]),
        ("_recv_status_u10", PyVal.int 0) ]
    statusUpdated := true
    updatesToSend := [("wall_time_hours", PyVal.int 7)]
    canSendUpdates := true
    displayStatus := [] }

/-- The buffer `get_status_buffer_for_writing` produces from `sFullC2`. -/
def outC2 : List Nat :=
  [0x00, 0x1E, 0x00, 0x00, 0x22, 0xFF, 0xFF, 0xFF, 0x54, 0x01,
   0x0C, 0x32, 0x0B, 0xE0, 0x72, 0x0B, 0x01, 0x00, 0x00, 0x00, 0x00, 0x00,
   0x00, 0x00, 0x01, 0x01]

/-- The application state after the successful write from `sFullC2`. -/
def appC2 : AppState :=
  { status :=
      [ ("_command_counter", PyVal.int 11),
        ("target_temp_room", PyVal.int 2930),
        ("heating_mode", PyVal.int 1),
        ("_recv_status_u3", PyVal.int 0),
        ("el_power_level", PyVal.int 0),
        ("target_temp_water", PyVal.int 0),
        ("energy_mix", PyVal.int 1),
        ("current_temp_water", PyVal.int 2930),
        ("current_temp_room", PyVal.int 2930),
        ("operating_status", PyVal.int 5),
        ("error_code", PyVal.bytes [0, 0]),
        ("_recv_status_u10", PyVal.int 0) ]
    statusUpdated := true
    updatesToSend := []
    canSendUpdates := true
    displayStatus := [] }

/-- The keys a successful `set_status` call can place into the queued
updates: underscore keys (stored raw) and the keys whose write converter
is the one-argument builtin `int` — every other known key's two-parameter
converter raises `TypeError` on the single-argument call, and unknown or
read-only keys raise outright. -/
def settableKey (k : String) : Bool :=
  pyUnderscore k ||
    (match dlookup STATUS_CONVERSION_FUNCTIONS k with
     | some (_, some ConvFn.builtinInt) => true
     | _ => false)

/-- Application states reachable from the initial state by `set_status`
calls and `get_status_buffer_for_writing` solicitations (no status-buffer
ingest).  A call that raises leaves the state unchanged, so only the
successful outcomes generate new states. -/
inductive ReachableNoIngest : AppState → Prop where
  | init : ReachableNoIngest initAppState
  | set (s s' : AppState) (k : String) (v : PyVal) :
      ReachableNoIngest s → set_status s k v = Except.ok s' → ReachableNoIngest s'
  | solicit (s s' : AppState) (r : Option (List Nat)) :
      ReachableNoIngest s → get_status_buffer_for_writing s = Except.ok (s', r) →
      ReachableNoIngest s'

/-- The invariant carried by every ingest-free state: the status dict
holds exactly the integer command counter, and every queued update sits
under a key `set_status` can actually produce. -/
def NoIngestInv (s : AppState) : Prop :=
  (∃ c : Int, dlookup s.status "_command_counter" = some (PyVal.int c)) ∧
  (∀ k, k ≠ "_command_counter" → dlookup s.status k = none) ∧
  (∀ k, (dlookup s.updatesToSend k).isSome → settableKey k = true)

/-- Keys whose read converter in `STATUS_CONVERSION_FUNCTIONS` is one of
the two-parameter `conversions.py` functions. -/
def twoArgReadKey (k : String) : Bool :=
  match dlookup STATUS_CONVERSION_FUNCTIONS k with
  | some (some (ConvFn.twoArg _), _) => true
  | _ => false

/-- Keys whose read converter is the one-argument builtin `int`. -/
def intReadKey (k : String) : Bool :=
  match dlookup STATUS_CONVERSION_FUNCTIONS k with
  | some (some ConvFn.builtinInt, _) => true
  | _ => false

/-- The header the test frame of the C6 witness parses to. -/
def hdC6 : FrameHeader :=
  { node_address_byte := 0x03
    frame_type := FrameType.single
    expected_bytes := some 5
    sid := some 0xB2
    payload := [0x00, 0x17, 0x46, 0x00, 0x1F] }

theorem dlookup_dset_self {α : Type} (d : List (String × α)) (k : String) (v : α) :
    dlookup (dset d k v) k = some v := by
  induction d with
  | nil => simp [dset, dlookup]
  | cons hd tl ih =>
      obtain ⟨k', v'⟩ := hd
      by_cases h : k' = k
      · subst h; simp [dset, dlookup]
      · simp [dset, dlookup, h, ih]

theorem dlookup_dset_ne {α : Type} (d : List (String × α)) (k k' : String) (v : α)
    (h : k' ≠ k) : dlookup (dset d k' v) k = dlookup d k := by
  induction d with
  | nil => simp [dset, dlookup, h]
  | cons hd tl ih =>
      obtain ⟨k'', v''⟩ := hd
      by_cases h2 : k'' = k'
      · subst h2; simp [dset, dlookup, h]
      · simp [dset, dlookup, h2, ih]

theorem checksum_acc_le (bs : List Nat) (a : Nat) (ha : a ≤ 255) :
    bs.foldl (fun acc b => let s := acc + b % 256; s % 256 + s / 256) a ≤ 255 := by
  induction bs generalizing a with
  | nil => simpa using ha
  | cons hd tl ih =>
      simp only [List.foldl_cons]
      apply ih
      show (a + hd % 256) % 256 + (a + hd % 256) / 256 ≤ 255
      omega

theorem toString_int_ofNat (n : ℕ) : toString (Int.ofNat n) = toString n := rfl

/-- C10: for every integer c in [5, 99], decoding the encoding of the
string of c yields the string of c back; every value below 5 (and a
missing value) encodes as 0x0000; and the decoder maps each of the
sentinel codes 0x0000, 0x0AAA and 0xAAAA to the string "0". -/
theorem temp_round_trip :
    (∀ (c : ℕ) (lang : String), 5 ≤ c → c ≤ 99 →
      temp_code_to_string (string_to_temp_code (c : ℚ) lang) lang = toString c) ∧
    (∀ (d : ℚ) (lang : String), d < 5 → decimal_to_temp_code (some d) lang = 0x0000) ∧
    (∀ lang : String, decimal_to_temp_code none lang = 0x0000) ∧
    (∀ lang : String, temp_code_to_string 0x0000 lang = "0" ∧
      temp_code_to_string 0xAAA lang = "0" ∧ temp_code_to_string 0xAAAA lang = "0") := by
  refine ⟨?_, ?_, ?_, ?_⟩
  · intro c lang h5 h99
    have hc5 : ¬ ((c : ℚ) < 5) := by
      push_neg
      exact_mod_cast h5
    have hfloor : Int.floor (((c : ℚ) + 273) * 10) = (((c + 273) * 10 : ℕ) : ℤ) := by
      have heq : ((c : ℚ) + 273) * 10 = (((c + 273) * 10 : ℕ) : ℚ) := by
        push_cast
        ring
      rw [heq, Int.floor_natCast]
    have henc : string_to_temp_code (c : ℚ) lang = (c + 273) * 10 := by
      simp only [string_to_temp_code, decimal_to_temp_code, if_neg hc5, hfloor]
      omega
    rw [henc]
    have hsent : ¬ ((c + 273) * 10 = 0xAAA ∨ (c + 273) * 10 = 0xAAAA ∨
        (c + 273) * 10 = 0x0000) := by omega
    unfold temp_code_to_string temp_code_to_decimal
    rw [if_neg hsent]
    have ht : (((c + 273) * 10 : ℕ) : ℤ) - 2730 = 10 * (c : ℤ) := by
      push_cast
      ring
    rw [ht]
    unfold decimalRender
    rw [if_pos (Int.mul_emod_right 10 (c : ℤ)), Int.mul_ediv_cancel_left (c : ℤ)
      (by norm_num)]
    exact toString_int_ofNat c
  · intro d lang h
    simp [decimal_to_temp_code, h]
  · intro lang
    rfl
  · intro lang
    refine ⟨?_, ?_, ?_⟩ <;> simp [temp_code_to_string, temp_code_to_decimal]

theorem temp_round_trip_witness :
    temp_code_to_string (string_to_temp_code (20 : ℚ) "en") "en" = toString (20 : ℕ) ∧
    decimal_to_temp_code (some (3 : ℚ)) "en" = 0x0000 :=
  ⟨temp_round_trip.1 20 "en" (by norm_num) (by norm_num),
   temp_round_trip.2.1 3 "en" (by norm_num)⟩

set_option maxRecDepth 40000 in
/-- C4: for every 6-bit id, attaching the parity bits of the claimed
formulas and running `check_pid_parity` returns the id; every byte whose
top two bits disagree with those formulas (that is, which differs from
the parity-completion of its own low six bits) is rejected with the
parity error. -/
theorem pid_parity_round_trip :
    (∀ i : Nat, i < 64 → check_pid_parity (applyParity i) = Except.ok i) ∧
    (∀ b : Nat, b < 256 → applyParity (b &&& 0x3F) ≠ b →
      check_pid_parity b = Except.error PyErr.checksumError) := by
  constructor
  · decide
  · decide

theorem pid_parity_round_trip_witness :
    check_pid_parity (applyParity 0x20) = Except.ok 0x20 ∧
    check_pid_parity 0xFF = Except.error PyErr.checksumError :=
  ⟨pid_parity_round_trip.1 0x20 (by decide),
   pid_parity_round_trip.2 0xFF (by decide) (by decide)⟩

/-- C8: a status buffer that does not start with the 10-byte preamble is
rejected silently and atomically — `process_status_buffer_update` returns
the application state completely unchanged (status map and command
counter, `status_updated`, `can_send_updates`, `updates_to_send`). -/
theorem preamble_reject_silent (app : AppState) (status_buffer : List Nat)
    (h : STATUS_BUFFER_PREAMBLE.isPrefixOf status_buffer = false) :
    process_status_buffer_update app status_buffer = Except.ok app := by
  simp [process_status_buffer_update, h]

theorem preamble_reject_silent_witness :
    process_status_buffer_update initAppState [0x01, 0x02, 0x03] =
      Except.ok initAppState :=
  preamble_reject_silent initAppState [0x01, 0x02, 0x03] (by decide)

/-- C2: every buffer returned by a successful
`get_status_buffer_for_writing` carries at offset 12 the command counter
`(previous stored counter + 1) mod 255`, and at offset 13 a checksum that
verifies over the bytes of the buffer from offset 8 onward with the
checksum byte itself removed, using the LIN sum-with-carry-then-invert
checksum. -/
theorem write_buffer_counter_checksum (app app' : AppState) (out : List Nat) (c0 : Int)
    (hcount : dlookup app.status "_command_counter" = some (PyVal.int c0))
    (h : get_status_buffer_for_writing app = Except.ok (app', some out)) :
    out.get? 12 = some ((c0 + 1) % 255).toNat ∧
    out.get? 13 = some (calculate_checksum ((out.drop 8).eraseIdx 5)) := by
  by_cases hemp : app.updatesToSend = []
  · simp [get_status_buffer_for_writing, hemp] at h
  · simp only [get_status_buffer_for_writing, if_neg hemp, hcount] at h
    cases hp : COMMAND_STATUS.pack
        (dmergeLookup (dset app.status "_command_counter" (PyVal.int ((c0 + 1) % 255)))
          app.updatesToSend) with
    | error e =>
        rw [hp] at h
        cases e <;> simp at h
    | ok contents =>
        rw [hp] at h
        simp only [Except.ok.injEq, Prod.mk.injEq, Option.some.injEq] at h
        obtain ⟨-, hout⟩ := h
        subst hout
        exact ⟨rfl, rfl⟩

theorem write_buffer_counter_checksum_witness :
    outC2.get? 12 = some (((10 : Int) + 1) % 255).toNat ∧
    outC2.get? 13 = some (calculate_checksum ((outC2.drop 8).eraseIdx 5)) :=
  write_buffer_counter_checksum sFullC2 appC2 outC2 10 (by decide) (by decide)

theorem dlookup_dset_isSome {α : Type} (d : List (String × α)) (k k' : String) (v : α)
    (h : (dlookup (dset d k v) k').isSome) : k' = k ∨ (dlookup d k').isSome := by
  by_cases hk : k = k'
  · exact Or.inl hk.symm
  · right
    rwa [dlookup_dset_ne d k' k v hk] at h

theorem set_status_ok_settable (s s' : AppState) (k : String) (v : PyVal)
    (h : set_status s k v = Except.ok s') :
    s'.status = s.status ∧ settableKey k = true ∧
    ∃ v', s'.updatesToSend = dset s.updatesToSend k v' := by
  unfold set_status at h
  split at h
  · rename_i hu
    cases h
    exact ⟨rfl, by simp [settableKey, hu], v, rfl⟩
  · rename_i hu
    split at h
    · cases h
    · cases h
    · rename_i fst wf heq
      split at h
      · cases h
      · rename_i v' hconv
        have hwf : wf = ConvFn.builtinInt := by
          cases wf with
          | builtinInt => rfl
          | twoArg f => simp [applyConv1] at hconv
        cases h
        refine ⟨rfl, ?_, v', rfl⟩
        simp [settableKey, heq, hwf]

theorem mapM_option_eq_none {α β : Type} (g : α → Option β) (l : List α) (a : α)
    (ha : a ∈ l) (h : g a = none) : l.mapM g = none := by
  induction l with
  | nil => cases ha
  | cons x xs ih =>
      rw [List.mapM_cons]
      rcases List.mem_cons.mp ha with rfl | hmem
      · rw [h]
        rfl
      · cases hx : g x with
        | none => rfl
        | some y =>
            rw [ih hmem]
            rfl

theorem pack_error_of_missing (c : TrumaCommand) (data : String → Option PyVal)
    (f : BitField) (hf : f ∈ c.fields) (h : data f.name = none) :
    c.pack data = Except.error PyErr.bitstructError := by
  unfold TrumaCommand.pack
  rw [mapM_option_eq_none (fun g => (data g.name).map (fun v => (g, v))) c.fields f hf
    (by simp [h])]

theorem materialize_none_of_inv (s : AppState) (h : NoIngestInv s) :
    ∃ s', get_status_buffer_for_writing s = Except.ok (s', none) ∧ NoIngestInv s' := by
  obtain ⟨⟨c, hc⟩, hstat, hupd⟩ := h
  by_cases hemp : s.updatesToSend = []
  · refine ⟨s, ?_, ⟨c, hc⟩, hstat, hupd⟩
    simp [get_status_buffer_for_writing, hemp]
  · have hmerge : dmergeLookup
        (dset s.status "_command_counter" (PyVal.int ((c + 1) % 255)))
        s.updatesToSend "target_temp_room" = none := by
      have h1 : dlookup s.updatesToSend "target_temp_room" = none := by
        cases hs : dlookup s.updatesToSend "target_temp_room" with
        | none => rfl
        | some w =>
            have hset := hupd "target_temp_room" (by simp [hs])
            have hfalse : settableKey "target_temp_room" = false := by decide
            rw [hfalse] at hset
            cases hset
      have h2 : dlookup (dset s.status "_command_counter"
          (PyVal.int ((c + 1) % 255))) "target_temp_room" = none := by
        rw [dlookup_dset_ne _ _ _ _ (by decide)]
        exact hstat _ (by decide)
      simp [dmergeLookup, h1, h2]
    have hpack : COMMAND_STATUS.pack (dmergeLookup
        (dset s.status "_command_counter" (PyVal.int ((c + 1) % 255)))
        s.updatesToSend) = Except.error PyErr.bitstructError := by
      refine pack_error_of_missing _ _ ⟨"target_temp_room", 16, FieldKind.unsigned⟩
        ?_ hmerge
      simp [COMMAND_STATUS]
    refine ⟨{ s with
        status := dset s.status "_command_counter" (PyVal.int ((c + 1) % 255)),
        canSendUpdates := false }, ?_, ?_⟩
    · unfold get_status_buffer_for_writing
      rw [if_neg hemp, hc]
      simp only [hpack]
    · refine ⟨⟨(c + 1) % 255, by simp [dlookup_dset_self]⟩, ?_, hupd⟩
      intro k hk
      rw [dlookup_dset_ne _ _ _ _ (Ne.symm hk)]
      exact hstat k hk

theorem reachable_no_ingest_inv (s : AppState) (h : ReachableNoIngest s) :
    NoIngestInv s := by
  induction h with
  | init =>
      refine ⟨⟨128, rfl⟩, ?_, ?_⟩
      · intro k hk
        simp [initAppState, dlookup, Ne.symm hk]
      · intro k hk
        simp [initAppState, dlookup] at hk
  | set s s' k v _ hok ih =>
      obtain ⟨hstat, hsett, v', hupd⟩ := set_status_ok_settable s s' k v hok
      obtain ⟨⟨c, hc⟩, hst, hup⟩ := ih
      refine ⟨⟨c, by rwa [hstat]⟩, ?_, ?_⟩
      · intro k' hk'
        rw [hstat]
        exact hst k' hk'
      · intro k' hk'
        rw [hupd] at hk'
        rcases dlookup_dset_isSome _ _ _ _ hk' with rfl | hk2
        · exact hsett
        · exact hup k' hk2
  | solicit s s' r _ hok ih =>
      obtain ⟨s'', hmat, hinv⟩ := materialize_none_of_inv s ih
      rw [hok] at hmat
      simp only [Except.ok.injEq, Prod.mk.injEq] at hmat
      obtain ⟨h1, -⟩ := hmat
      rwa [h1]

/-- C1: send gating — starting from the initial application state, no
sequence of `set_status` calls and 0xBA solicitations
(`get_status_buffer_for_writing` calls) without a successful
status-buffer ingest can make `get_status_buffer_for_writing` return a
byte buffer: it returns `None` (and raises nothing) in every such
state. -/
theorem send_gated_before_ingest (s : AppState) (h : ReachableNoIngest s) :
    ∃ s', get_status_buffer_for_writing s = Except.ok (s', none) := by
  obtain ⟨s', hmat, -⟩ := materialize_none_of_inv s (reachable_no_ingest_inv s h)
  exact ⟨s', hmat⟩

theorem send_gated_before_ingest_witness :
    ∃ s', get_status_buffer_for_writing initAppState = Except.ok (s', none) :=
  send_gated_before_ingest initAppState ReachableNoIngest.init

/-- C9 counterexample: in the state `sFullC2` the TIME-command field
`wall_time_hours` is queued; a 0xBA solicitation succeeds (packing the
STATUS command) and afterwards `wall_time_hours` is gone from the
pending updates, contradicting the claim that only the drained keys of
the packed command's write schema are removed. -/
theorem materialize_clears_foreign_updates :
    dlookup sFullC2.updatesToSend "wall_time_hours" = some (PyVal.int 7) ∧
    get_status_buffer_for_writing sFullC2 = Except.ok (appC2, some outC2) ∧
    dlookup appC2.updatesToSend "wall_time_hours" = none :=
  ⟨rfl, by decide, rfl⟩

/-- C9 (amended): when `get_status_buffer_for_writing` succeeds, the
*entire* pending-updates dict is cleared — the drained keys of the STATUS
write schema and any pending updates of other commands alike. -/
theorem materialize_success_clears_all (app app' : AppState) (out : List Nat)
    (h : get_status_buffer_for_writing app = Except.ok (app', some out)) :
    app'.updatesToSend = [] := by
  by_cases hemp : app.updatesToSend = []
  · simp [get_status_buffer_for_writing, hemp] at h
  · cases hcc : dlookup app.status "_command_counter" with
    | none => simp [get_status_buffer_for_writing, hemp, hcc] at h
    | some v =>
        cases v with
        | bytes bs => simp [get_status_buffer_for_writing, hemp, hcc] at h
        | str s => simp [get_status_buffer_for_writing, hemp, hcc] at h
        | int c =>
            simp only [get_status_buffer_for_writing, if_neg hemp, hcc] at h
            cases hp : COMMAND_STATUS.pack
                (dmergeLookup (dset app.status "_command_counter"
                  (PyVal.int ((c + 1) % 255))) app.updatesToSend) with
            | error e =>
                rw [hp] at h
                cases e <;> simp at h
            | ok contents =>
                rw [hp] at h
                simp only [Except.ok.injEq, Prod.mk.injEq] at h
                obtain ⟨h1, -⟩ := h
                rw [← h1]

theorem materialize_success_clears_all_witness :
    appC2.updatesToSend = [] :=
  materialize_success_clears_all sFullC2 appC2 outC2 (by decide)

theorem dlookup_key_fst {α : Type} (l : List (String × α)) (k : String) (e : α)
    (h : dlookup l k = some e) (hl : ∀ p ∈ l, pyUnderscore p.1 = false) :
    pyUnderscore k = false := by
  induction l with
  | nil => cases h
  | cons x xs ih =>
      obtain ⟨k', v'⟩ := x
      by_cases hk : k' = k
      · subst hk
        exact hl (k', v') (List.mem_cons_self _ _)
      · unfold dlookup at h
        rw [if_neg hk] at h
        exact ih h (fun p hp => hl p (List.mem_cons_of_mem _ hp))

theorem scf_key_not_underscore (k : String) (e : Option ConvFn × Option ConvFn)
    (h : dlookup STATUS_CONVERSION_FUNCTIONS k = some e) : pyUnderscore k = false :=
  dlookup_key_fst STATUS_CONVERSION_FUNCTIONS k e h (by decide)

theorem mapM_except_error {α β : Type} (g : α → Except PyErr β) (l : List α) (a : α)
    (ha : a ∈ l) (h : ∀ b, g a ≠ Except.ok b) :
    ∃ e, l.mapM g = Except.error e := by
  induction l with
  | nil => cases ha
  | cons x xs ih =>
      rw [List.mapM_cons]
      rcases List.mem_cons.mp ha with rfl | hmem
      · cases hx : g a with
        | error e => exact ⟨e, rfl⟩
        | ok b => exact absurd hx (h b)
      · cases hx : g x with
        | error e => exact ⟨e, rfl⟩
        | ok b =>
            obtain ⟨e, he⟩ := ih hmem
            refine ⟨e, ?_⟩
            rw [he]
            rfl

theorem mem_dlookup {α : Type} (l : List (String × α)) (k : String) (v : α)
    (h : (k, v) ∈ l) : ∃ w, dlookup l k = some w := by
  induction l with
  | nil => cases h
  | cons x xs ih =>
      obtain ⟨k', v'⟩ := x
      by_cases hk : k' = k
      · exact ⟨v', by simp [dlookup, hk]⟩
      · rcases List.mem_cons.mp h with hx | hmem
        · cases hx
          exact absurd rfl hk
        · obtain ⟨w, hw⟩ := ih hmem
          exact ⟨w, by simp [dlookup, hk, hw]⟩

/-- C3 (amended): a key present in the status map whose decode entry is
one of the two-parameter `conversions.py` functions — including
`timer_active`, decoded by the two-parameter `bool_to_int` — makes
`get_status` raise `TypeError`, because the converter is invoked with a
single argument; keys decoded by the one-argument builtin `int` and
underscore-prefixed keys return normally; and `get_all` raises whenever
any two-parameter-decoded key is present in the status map. -/
theorem get_status_conversion_arity :
    (∀ (s : AppState) (k : String) (v : PyVal), twoArgReadKey k = true →
      dlookup s.status k = some v →
      get_status s k none = Except.error PyErr.typeError) ∧
    (∀ (s : AppState) (k : String) (n : Int), intReadKey k = true →
      dlookup s.status k = some (PyVal.int n) →
      get_status s k none = Except.ok (PyVal.int n)) ∧
    (∀ (s : AppState) (k : String) (n : Int), pyUnderscore k = true →
      dlookup s.status k = some (PyVal.int n) →
      get_status s k none =
        Except.ok (PyVal.str ("unknown - " ++ toString n ++ " = " ++ pyHex n))) ∧
    (∀ s : AppState, (∃ k v, (k, v) ∈ s.status ∧ twoArgReadKey k = true) →
      ∃ e, get_all s = Except.error e) := by
  have hpart1 : ∀ (s : AppState) (k : String) (v : PyVal), twoArgReadKey k = true →
      dlookup s.status k = some v →
      get_status s k none = Except.error PyErr.typeError := by
    intro s k v h2 hv
    obtain ⟨f, w, heq⟩ : ∃ f w, dlookup STATUS_CONVERSION_FUNCTIONS k =
        some (some (ConvFn.twoArg f), w) := by
      unfold twoArgReadKey at h2
      cases hl : dlookup STATUS_CONVERSION_FUNCTIONS k with
      | none => rw [hl] at h2; cases h2
      | some e =>
          obtain ⟨d, w⟩ := e
          cases d with
          | none => rw [hl] at h2; simp at h2
          | some cf =>
              cases cf with
              | builtinInt => rw [hl] at h2; simp at h2
              | twoArg f => exact ⟨f, w, rfl⟩
    have hund := scf_key_not_underscore k _ heq
    simp [get_status, hv, hund, heq, applyConv1]
  refine ⟨hpart1, ?_, ?_, ?_⟩
  · intro s k n h2 hv
    obtain ⟨w, heq⟩ : ∃ w, dlookup STATUS_CONVERSION_FUNCTIONS k =
        some (some ConvFn.builtinInt, w) := by
      unfold intReadKey at h2
      cases hl : dlookup STATUS_CONVERSION_FUNCTIONS k with
      | none => rw [hl] at h2; cases h2
      | some e =>
          obtain ⟨d, w⟩ := e
          cases d with
          | none => rw [hl] at h2; simp at h2
          | some cf =>
              cases cf with
              | builtinInt => exact ⟨w, rfl⟩
              | twoArg f => rw [hl] at h2; simp at h2
    have hund := scf_key_not_underscore k _ heq
    simp [get_status, hv, hund, heq, applyConv1]
  · intro s k n hu hv
    simp [get_status, hv, hu]
  · intro s hex
    obtain ⟨k, v, hmem, h2⟩ := hex
    obtain ⟨w, hw⟩ := mem_dlookup s.status k v hmem
    have hget := hpart1 s k w h2 hw
    have hap := mapM_except_error
      (fun kv => (get_status s kv.1 none).map (fun u => (kv.1, u))) s.status (k, v)
      hmem ?_
    · obtain ⟨e, he⟩ := hap
      refine ⟨e, ?_⟩
      unfold get_all
      rw [he]
      rfl
    · intro b hb
      simp only [hget, Except.map] at hb
      cases hb

/-- C3 counterexample to the claim as stated: `timer_active` is decoded
by `bool_to_int`, whose signature in this source is `(value, lang)`, so
`get_status` on a status map holding `timer_active` raises `TypeError`
instead of returning normally. -/
theorem timer_active_get_raises :
    get_status
      { status := [("timer_active", PyVal.int 1)]
        statusUpdated := false
        updatesToSend := []
        canSendUpdates := false
        displayStatus := [] } "timer_active" none = Except.error PyErr.typeError := by
  rfl

theorem get_status_conversion_arity_witness :
    get_status
      { status := [("heating_mode", PyVal.int 1)]
        statusUpdated := false
        updatesToSend := []
        canSendUpdates := false
        displayStatus := [] } "heating_mode" none = Except.error PyErr.typeError :=
  get_status_conversion_arity.1
    { status := [("heating_mode", PyVal.int 1)]
      statusUpdated := false
      updatesToSend := []
      canSendUpdates := false
      displayStatus := [] } "heating_mode" (PyVal.int 1) (by decide) (by decide)

/-- C5 (amended, part confirmed): processing a 0x3C single frame with
SID 0xB0 whose payload starts with the vendor identifier raises the
fatal NAD-reassignment error if and only if the payload's last byte
differs from the node address 0x03; when it equals 0x03, no error is
raised and the acknowledge frame 03 01 F0 FF FF FF FF FF is placed in
the transport response queue.  (It is however not the only error the
engine can propagate — see the counterexample.) -/
theorem assign_nad_error_iff (p : ProtocolState) (lin : LinState) (app : AppState)
    (expected_bytes : Option Int) (payload : List Nat)
    (hstart : IDENTIFIER.isPrefixOf payload = true) :
    (receive_transportlayer_frame p lin app FrameType.single expected_bytes
        (some 0xB0) payload =
      Except.error (PyErr.exception "CP Plus tried to give us a new node address") ↔
      payload.getLast? ≠ some 0x03) ∧
    (payload.getLast? = some 0x03 →
      receive_transportlayer_frame p lin app FrameType.single expected_bytes
        (some 0xB0) payload = Except.ok (p, prepare_transportlayer_response lin
          [[0x03, 0x01, 0xF0, 0xFF, 0xFF, 0xFF, 0xFF, 0xFF]], app)) := by
  constructor
  · by_cases hlast : payload.getLast? = some 0x03
    · simp [receive_transportlayer_frame, hstart, hlast, NODE_ADDRESS]
    · simp [receive_transportlayer_frame, hstart, hlast, NODE_ADDRESS]
  · intro hlast
    simp [receive_transportlayer_frame, hstart, hlast, NODE_ADDRESS]

theorem assign_nad_error_iff_witness :
    receive_transportlayer_frame initProtocolState initLinState initAppState
      FrameType.single (some 5) (some 0xB0) [0x17, 0x46, 0x00, 0x1F, 0x03] =
      Except.ok (initProtocolState, prepare_transportlayer_response initLinState
        [[0x03, 0x01, 0xF0, 0xFF, 0xFF, 0xFF, 0xFF, 0xFF]], initAppState) :=
  (assign_nad_error_iff initProtocolState initLinState initAppState (some 5)
    [0x17, 0x46, 0x00, 0x1F, 0x03] (by decide)).2 (by decide)

/-- C5 counterexample to the only-error clause: a first frame announcing
an expected byte count of 2 leaves the reassembly state with expected
count 0, and the next consecutive frame trips the source's `assert`,
propagating an `AssertionError` that is not the NAD-reassignment
error. -/
theorem nad_not_only_error :
    receive_transportlayer_frame initProtocolState initLinState initAppState
      FrameType.first (some 2) (some 0xBA) [0x00, 0x1F, 0x05] =
      Except.ok ({ receivedSid := some 0xBA
                   receivedPayload := some [0x05]
                   receivedExpectedBytes := some 0 }, initLinState, initAppState) ∧
    receive_transportlayer_frame
      { receivedSid := some 0xBA
        receivedPayload := some [0x05]
        receivedExpectedBytes := some 0 }
      initLinState initAppState FrameType.consecutive none none [0x06] =
      Except.error PyErr.assertionError :=
  ⟨by decide, by decide⟩

/-- C6 (amended): a 0x3C transport single frame with sid 0xB2 whose
payload carries the vendor identifier bytes 17 46 00 1F from byte 1 on
(the source compares `payload[1:]`, so the payload holds one leading
byte before the identifier) places the single response frame
03 06 F2 17 46 00 1F 00 in the transport response queue. -/
theorem read_by_id_enqueues (p : ProtocolState) (lin : LinState) (app : AppState)
    (databytes : List Nat) (hd : FrameHeader)
    (h : parse_transportlayer_frame_header databytes = Except.ok hd)
    (hsid : hd.sid = some 0xB2) (hpl : hd.payload.drop 1 = IDENTIFIER) :
    parse_transportlayer_master2slave p lin app databytes =
      Except.ok (p, prepare_transportlayer_response lin
        [[0x03, 0x06, 0xF2, 0x17, 0x46, 0x00, 0x1F, 0x00]], app) := by
  unfold parse_transportlayer_master2slave
  rw [h]
  simp [hsid, hpl, receive_read_by_identifier_request, IDENTIFIER, NODE_ADDRESS,
    prepare_transportlayer_response]

theorem read_by_id_enqueues_witness :
    parse_transportlayer_master2slave initProtocolState initLinState initAppState
      [0x03, 0x06, 0xB2, 0x00, 0x17, 0x46, 0x00, 0x1F] =
      Except.ok (initProtocolState, prepare_transportlayer_response initLinState
        [[0x03, 0x06, 0xF2, 0x17, 0x46, 0x00, 0x1F, 0x00]], initAppState) :=
  read_by_id_enqueues initProtocolState initLinState initAppState
    [0x03, 0x06, 0xB2, 0x00, 0x17, 0x46, 0x00, 0x1F] hdC6 (by decide) (by decide)
    (by decide)

/-- C6 counterexample to the claim as stated: a single frame whose
payload is *exactly* the four vendor identifier bytes is not answered —
the source compares `payload[1:]` against the identifier, so the match
fails and no response frame is queued. -/
theorem read_by_id_exact_payload_silent :
    parse_transportlayer_master2slave initProtocolState initLinState initAppState
      [0x03, 0x05, 0xB2, 0x17, 0x46, 0x00, 0x1F] =
      Except.ok (initProtocolState, initLinState, initAppState) := by
  decide

/-- C7 (amended): a `wall_time` set message is accepted exactly when it
splits on colons into three nonempty all-digit components whose values
are in range (hours at most 23, minutes and seconds at most 59) — the
number of digits per component is not constrained.  An accepted message
expands into the three primitive pending updates; "24:00:00" is rejected
(no primitive update is queued, only the raw `wall_time` entry remains);
"7:8:9" is accepted and expands into hours 7, minutes 8, seconds 9. -/
theorem wall_time_validation :
    (∀ (ub : List (String × String)) (msg hours minutes seconds : String),
      pySplitColon msg = [hours, minutes, seconds] →
      pyIsDigit hours = true → pyIsDigit minutes = true → pyIsDigit seconds = true →
      natOfDigits hours.toList ≤ 23 → natOfDigits minutes.toList ≤ 59 →
      natOfDigits seconds.toList ≤ 59 →
      handle_set_wall_time ub msg =
        dset (dset (dset (ddel (dset ub "wall_time" msg) "wall_time")
          "wall_time_hours" hours) "wall_time_minutes" minutes)
          "wall_time_seconds" seconds) ∧
    handle_set_wall_time [] "24:00:00" = [("wall_time", "24:00:00")] ∧
    handle_set_wall_time [] "7:8:9" =
      [("wall_time_hours", "7"), ("wall_time_minutes", "8"),
        ("wall_time_seconds", "9")] := by
  refine ⟨?_, by decide, by decide⟩
  intro ub msg hours minutes seconds hsplit hh hm hs rh rm rs
  unfold handle_set_wall_time
  rw [hsplit]
  dsimp only
  rw [if_neg (by simp [hh, hm, hs])]
  rw [if_neg (by omega)]

theorem wall_time_validation_witness :
    handle_set_wall_time [] "07:08:09" =
      [("wall_time_hours", "07"), ("wall_time_minutes", "08"),
        ("wall_time_seconds", "09")] := by
  have h := wall_time_validation.1 [] "07:08:09" "07" "08" "09" (by decide) (by decide)
    (by decide) (by decide) (by decide) (by decide) (by decide)
  rw [h]
  decide

/-- C7 counterexample to the claim as stated: the input "7:8:9" is
accepted, not rejected — the three primitive updates are queued. -/
theorem wall_time_789_not_rejected :
    handle_set_wall_time [] "7:8:9" =
      [("wall_time_hours", "7"), ("wall_time_minutes", "8"),
        ("wall_time_seconds", "9")] ∧
    dlookup (handle_set_wall_time [] "7:8:9") "wall_time_hours" = some "7" :=
  ⟨by decide, by decide⟩

